import Mathlib

/-!
Shallow embedding of the motulator induction-machine observer module
(`motulator/control/im/_common.py`) and the power-converter models
(`motulator/model/_converter.py`), together with theorems settling the
specification claims about them.  Python floats are modelled by real
numbers, complex space vectors by `ℂ`, and the dynamically grown
attributes of the `ModelPars` dataclass by `Option` fields.
-/

namespace Motulator

open Complex

/-- Modelled from the spec: the angle-wrapping helper `wrap` from
`motulator._helpers` (its source file is not among the sources at hand).
The spec states that the flux-angle state is always wrapped into the
interval (-pi, pi], so `wrap` returns the representative of `theta`
modulo `2*pi` that lies in (-pi, pi]. -/
noncomputable def wrap (theta : ℝ) : ℝ :=
  theta - 2 * Real.pi * (Int.ceil ((theta - Real.pi) / (2 * Real.pi)) : ℝ)

/-- Structure `ModelPars`: inverse-Gamma model parameters of an induction machine.
The two trailing `Option` fields model the attributes `R_sgm` and `alpha`
that `FullOrderObserver.output` assigns dynamically onto the parameter
object; a freshly constructed `ModelPars` carries neither. -/
structure ModelPars where
  R_s : ℝ
  R_R : ℝ
  L_sgm : ℝ
  L_M : ℝ
  n_p : ℤ
  J : ℝ
  R_sgm : Option ℝ := none
  alpha : Option ℝ := none

/-- Default sensorless observer gain from `ObserverPars.__post_init__`:
`lambda w_m: (.5*alpha + .2*abs(w_m))/(alpha - 1j*w_m)`. -/
noncomputable def defaultKoSensorless (alpha : ℝ) : ℝ → ℂ := fun w_m =>
  (((0.5 * alpha + 0.2 * |w_m| : ℝ)) : ℂ) / ((alpha : ℂ) - Complex.I * (w_m : ℂ))

/-- Default sensored observer gain from `ObserverPars.__post_init__`:
`lambda w_m: 1 + .2*abs(w_m)/(alpha - 1j*w_m)`. -/
noncomputable def defaultKoSensored (alpha : ℝ) : ℝ → ℂ := fun w_m =>
  1 + (((0.2 * |w_m| : ℝ)) : ℂ) / ((alpha : ℂ) - Complex.I * (w_m : ℂ))

/-- Structure `ObserverPars` after `__post_init__` has resolved the gain namespace:
the stored gain is the pair `(alpha_o, k_o)`. -/
structure ObserverPars where
  model_par : ModelPars
  T_s : ℝ
  sensorless : Bool
  alpha_o : ℝ
  k_o : ℝ → ℂ

/-- Source `ObserverPars.__post_init__`: resolve the default observer gain
(depending on the sensorless flag) when the caller supplies none. -/
noncomputable def mkObserverPars (model_par : ModelPars) (T_s : ℝ)
    (sensorless : Bool) (alpha_o : ℝ) (k_o : Option (ℝ → ℂ)) : ObserverPars :=
  { model_par := model_par, T_s := T_s, sensorless := sensorless,
    alpha_o := alpha_o,
    k_o := k_o.getD (if sensorless then
        defaultKoSensorless (model_par.R_R / model_par.L_M)
      else defaultKoSensored (model_par.R_R / model_par.L_M)) }

/-- State of the reduced-order observer: `SimpleNamespace(psi_R, theta_s, w_m)`. -/
structure ObsState where
  psi_R : ℝ
  theta_s : ℝ
  w_m : ℝ

/-- Internal work variables of the reduced-order observer:
`SimpleNamespace(d_psi_R, d_w_m, old_i_s)`. -/
structure ObsWork where
  d_psi_R : ℝ
  d_w_m : ℝ
  old_i_s : ℂ

/-- The reduced-order flux observer object (class `Observer`). -/
structure Observer where
  par : ModelPars
  sensorless : Bool
  T_s : ℝ
  alpha_o : ℝ
  k_o : ℝ → ℂ
  state : ObsState
  work : ObsWork

/-- Source `Observer.__init__`. -/
def Observer.init (op : ObserverPars) : Observer :=
  { par := op.model_par, sensorless := op.sensorless, T_s := op.T_s,
    alpha_o := op.alpha_o, k_o := op.k_o,
    state := { psi_R := 0, theta_s := 0, w_m := 0 },
    work := { d_psi_R := 0, d_w_m := 0, old_i_s := 0 } }

/-- Measured signals passed into `output`: stator voltage and current in
stator coordinates, plus the measured speed (used only in sensored mode). -/
structure FbkIn where
  u_ss : ℂ
  i_ss : ℂ
  w_m : ℝ

/-- Feedback record produced by the reduced-order `Observer.output`. -/
structure Fbk where
  u_s : ℂ
  i_s : ℂ
  psi_s : ℂ
  psi_R : ℝ
  theta_s : ℝ
  w_m : ℝ
  w_s : ℝ
  w_r : ℝ

/-- Source `fbk.w_m = self.state.w_m if self.sensorless else fbk.w_m`. -/
noncomputable def Observer.fbk_w_m (o : Observer) (inp : FbkIn) : ℝ :=
  if o.sensorless then o.state.w_m else inp.w_m

/-- Source `fbk.i_s = np.exp(-1j*fbk.theta_s)*fbk.i_ss`. -/
noncomputable def Observer.i_s (o : Observer) (inp : FbkIn) : ℂ :=
  Complex.exp (-Complex.I * (o.state.theta_s : ℂ)) * inp.i_ss

/-- Source `fbk.u_s = np.exp(-1j*fbk.theta_s)*fbk.u_ss`. -/
noncomputable def Observer.u_s (o : Observer) (inp : FbkIn) : ℂ :=
  Complex.exp (-Complex.I * (o.state.theta_s : ℂ)) * inp.u_ss

/-- Source `d_i_s = (fbk.i_s - self._work.old_i_s)/self.T_s`. -/
noncomputable def Observer.d_i_s (o : Observer) (inp : FbkIn) : ℂ :=
  (o.i_s inp - o.work.old_i_s) / (o.T_s : ℂ)

/-- Source `v_s = fbk.u_s - par.R_s*fbk.i_s - par.L_sgm*d_i_s`. -/
noncomputable def Observer.v_s (o : Observer) (inp : FbkIn) : ℂ :=
  o.u_s inp - (o.par.R_s : ℂ) * o.i_s inp - (o.par.L_sgm : ℂ) * o.d_i_s inp

/-- Source `v_r = par.R_R*fbk.i_s - (par.R_R/par.L_M - 1j*fbk.w_m)*fbk.psi_R`. -/
noncomputable def Observer.v_r (o : Observer) (inp : FbkIn) : ℂ :=
  (o.par.R_R : ℂ) * o.i_s inp -
    (((o.par.R_R / o.par.L_M : ℝ) : ℂ) - Complex.I * ((o.fbk_w_m inp : ℝ) : ℂ)) *
      ((o.state.psi_R : ℝ) : ℂ)

/-- The observer gains `(k_o1, k_o2)`: in sensorless mode both equal
`k_o(w_m)`; in sensored mode they are `(k_o(w_m), 0)`. -/
noncomputable def Observer.gains (o : Observer) (inp : FbkIn) : ℂ × ℂ :=
  if o.sensorless then (o.k_o (o.fbk_w_m inp), o.k_o (o.fbk_w_m inp))
  else (o.k_o (o.fbk_w_m inp), 0)

/-- Source `den = fbk.psi_R + par.L_sgm*np.real((1 - k_o1)*fbk.i_s + k_o2*np.conj(fbk.i_s))`. -/
noncomputable def Observer.den (o : Observer) (inp : FbkIn) : ℝ :=
  o.state.psi_R + o.par.L_sgm *
    ((1 - (o.gains inp).1) * o.i_s inp + (o.gains inp).2 * star (o.i_s inp)).re

/-- Source `num = np.imag(v_s + k_o1*(v_r - v_s) + k_o2*np.conj(v_r - v_s))`. -/
noncomputable def Observer.num (o : Observer) (inp : FbkIn) : ℝ :=
  (o.v_s inp + (o.gains inp).1 * (o.v_r inp - o.v_s inp) +
    (o.gains inp).2 * star (o.v_r inp - o.v_s inp)).im

/-- Source `fbk.w_s = num/den if den > 0 else fbk.w_m`. -/
noncomputable def Observer.w_s (o : Observer) (inp : FbkIn) : ℝ :=
  if 0 < o.den inp then o.num inp / o.den inp else o.fbk_w_m inp

/-- Source `fbk.w_r = par.R_R*fbk.i_s.imag/fbk.psi_R if fbk.psi_R > 0 else 0`. -/
noncomputable def Observer.w_r (o : Observer) (inp : FbkIn) : ℝ :=
  if 0 < o.state.psi_R then o.par.R_R * (o.i_s inp).im / o.state.psi_R else 0

/-- Source `v = v_s - 1j*fbk.w_s*par.L_sgm*fbk.i_s`. -/
noncomputable def Observer.v (o : Observer) (inp : FbkIn) : ℂ :=
  o.v_s inp - Complex.I * ((o.w_s inp : ℝ) : ℂ) * ((o.par.L_sgm : ℝ) : ℂ) * o.i_s inp

/-- Source `self._work.d_psi_R = np.real(v + k_o1*(v_r - v) + k_o2*np.conj(v_r - v))`. -/
noncomputable def Observer.d_psi_R (o : Observer) (inp : FbkIn) : ℝ :=
  (o.v inp + (o.gains inp).1 * (o.v_r inp - o.v inp) +
    (o.gains inp).2 * star (o.v_r inp - o.v inp)).re

/-- Source `self._work.d_w_m = self.gain.alpha_o*(fbk.w_s - fbk.w_r - fbk.w_m)`. -/
noncomputable def Observer.d_w_m (o : Observer) (inp : FbkIn) : ℝ :=
  o.alpha_o * (o.w_s inp - o.w_r inp - o.fbk_w_m inp)

/-- Source `Observer.output`: returns the observer with refreshed work variables
(the states and parameters are untouched) together with the feedback
record handed to the control system. -/
noncomputable def Observer.output (o : Observer) (inp : FbkIn) : Observer × Fbk :=
  ({ o with work := { d_psi_R := o.d_psi_R inp, d_w_m := o.d_w_m inp,
                      old_i_s := o.work.old_i_s } },
   { u_s := o.u_s inp, i_s := o.i_s inp,
     psi_s := ((o.par.L_sgm : ℝ) : ℂ) * o.i_s inp + ((o.state.psi_R : ℝ) : ℂ),
     psi_R := o.state.psi_R, theta_s := o.state.theta_s,
     w_m := o.fbk_w_m inp, w_s := o.w_s inp, w_r := o.w_r inp })

/-- Source `Observer.update`: forward-Euler step of the stored derivatives, angle
wrapping, refresh of the stored sampling period and of the old current. -/
noncomputable def Observer.update (o : Observer) (T_s : ℝ) (fbk : Fbk) : Observer :=
  { o with
    state := { psi_R := o.state.psi_R + T_s * o.work.d_psi_R,
               theta_s := wrap (o.state.theta_s + T_s * fbk.w_s),
               w_m := o.state.w_m + T_s * o.work.d_w_m },
    T_s := T_s,
    work := { o.work with old_i_s := fbk.i_s } }

/-- State of the full-order observer:
`SimpleNamespace(psi_R, i_s, theta_s, w_m)`. -/
structure FullObsState where
  psi_R : ℝ
  i_s : ℂ
  theta_s : ℝ
  w_m : ℝ

/-- Internal work variables of the full-order observer:
`SimpleNamespace(d_psi_R, d_i_s, d_w_m)`. -/
structure FullObsWork where
  d_psi_R : ℝ
  d_i_s : ℂ
  d_w_m : ℝ

/-- The full-order flux observer object (class `FullOrderObserver`).
Besides `alpha_o` and `k_o`, its gain namespace carries `alpha_i` and
`g = alpha_i - R_R/L_M` (from `FullOrderObserverPars.__post_init__`). -/
structure FullOrderObserver where
  par : ModelPars
  sensorless : Bool
  alpha_o : ℝ
  alpha_i : ℝ
  g : ℝ
  k_o : ℝ → ℂ
  state : FullObsState
  work : FullObsWork

/-- The fully initialised full-order observer record (states zeroed),
before the sensored-mode check of `FullOrderObserver.__init__`. -/
noncomputable def fullObserverInit (model_par : ModelPars) (sensorless : Bool)
    (alpha_o alpha_i : ℝ) (k_o : ℝ → ℂ) : FullOrderObserver :=
  { par := model_par, sensorless := sensorless, alpha_o := alpha_o,
    alpha_i := alpha_i, g := alpha_i - model_par.R_R / model_par.L_M,
    k_o := k_o,
    state := { psi_R := 0, i_s := 0, theta_s := 0, w_m := 0 },
    work := { d_psi_R := 0, d_i_s := 0, d_w_m := 0 } }

/-- Error message of the `NotImplementedError` raised by
`FullOrderObserver.__init__` in sensored mode. -/
def sensoredErrMsg : String :=
  "Sensored mode not implemented for this full-order observer"

/-- Source `FullOrderObserver.__init__`: construction fails with a
`NotImplementedError` unless the observer is configured sensorless. -/
noncomputable def mkFullOrderObserver (model_par : ModelPars) (sensorless : Bool)
    (alpha_o alpha_i : ℝ) (k_o : ℝ → ℂ) : Except String FullOrderObserver :=
  if sensorless then
    Except.ok (fullObserverInit model_par sensorless alpha_o alpha_i k_o)
  else Except.error sensoredErrMsg

/-- Source `fbk.i_s = np.exp(-1j*fbk.theta_s)*fbk.i_ss` in `FullOrderObserver.output`. -/
noncomputable def FullOrderObserver.fbk_i_s (o : FullOrderObserver) (inp : FbkIn) : ℂ :=
  Complex.exp (-Complex.I * (o.state.theta_s : ℂ)) * inp.i_ss

/-- Source `fbk.u_s = np.exp(-1j*fbk.theta_s)*fbk.u_ss` in `FullOrderObserver.output`. -/
noncomputable def FullOrderObserver.fbk_u_s (o : FullOrderObserver) (inp : FbkIn) : ℂ :=
  Complex.exp (-Complex.I * (o.state.theta_s : ℂ)) * inp.u_ss

/-- Source `err_i_s = fbk.i_s - self.state.i_s`. -/
noncomputable def FullOrderObserver.err_i_s (o : FullOrderObserver) (inp : FbkIn) : ℂ :=
  o.fbk_i_s inp - o.state.i_s

/-- Source `p_term = -gain.alpha_o*par.L_sgm*err_i_s.imag/fbk.psi_R if fbk.psi_R > 0 else 0`. -/
noncomputable def FullOrderObserver.p_term (o : FullOrderObserver) (inp : FbkIn) : ℝ :=
  if 0 < o.state.psi_R then
    -o.alpha_o * o.par.L_sgm * (o.err_i_s inp).im / o.state.psi_R
  else 0

/-- Source `w_m = p_term + self.state.w_m`: the PI-adapted speed estimate used by
the rest of the output computation. -/
noncomputable def FullOrderObserver.w_m_adapted (o : FullOrderObserver) (inp : FbkIn) : ℝ :=
  o.p_term inp + o.state.w_m

/-- Source `den = fbk.psi_R - par.L_sgm*err_i_s.real`. -/
noncomputable def FullOrderObserver.den (o : FullOrderObserver) (inp : FbkIn) : ℝ :=
  o.state.psi_R - o.par.L_sgm * (o.err_i_s inp).re

/-- Source `num = par.R_R*fbk.i_s.imag + par.L_sgm*(gain.alpha_i*gain.k_o(w_m).imag
* err_i_s.real - gain.g*err_i_s.imag)`. -/
noncomputable def FullOrderObserver.num (o : FullOrderObserver) (inp : FbkIn) : ℝ :=
  o.par.R_R * (o.fbk_i_s inp).im + o.par.L_sgm *
    (o.alpha_i * (o.k_o (o.w_m_adapted inp)).im * (o.err_i_s inp).re -
      o.g * (o.err_i_s inp).im)

/-- Source `fbk.w_s = w_m + num/den if den > 0 else w_m`. -/
noncomputable def FullOrderObserver.w_s (o : FullOrderObserver) (inp : FbkIn) : ℝ :=
  if 0 < o.den inp then o.w_m_adapted inp + o.num inp / o.den inp
  else o.w_m_adapted inp

/-- Source `k_i = par.L_sgm*(gain.g - 1j*(fbk.w_s - w_m)) - par.R_sgm`, with
`par.R_sgm = par.R_s + par.R_R` as assigned at the top of `output`. -/
noncomputable def FullOrderObserver.k_i (o : FullOrderObserver) (inp : FbkIn) : ℂ :=
  ((o.par.L_sgm : ℝ) : ℂ) *
      (((o.g : ℝ) : ℂ) - Complex.I * (((o.w_s inp - o.w_m_adapted inp : ℝ)) : ℂ)) -
    (((o.par.R_s + o.par.R_R : ℝ)) : ℂ)

/-- Source `self._work.d_i_s = (fbk.u_s - (par.R_sgm + 1j*fbk.w_s*par.L_sgm)*self.state.i_s
+ (par.alpha - 1j*w_m)*fbk.psi_R + k_i*err_i_s)/par.L_sgm`, with
`par.alpha = par.R_R/par.L_M` as assigned at the top of `output`. -/
noncomputable def FullOrderObserver.d_i_s (o : FullOrderObserver) (inp : FbkIn) : ℂ :=
  (o.fbk_u_s inp -
      ((((o.par.R_s + o.par.R_R : ℝ)) : ℂ) +
        Complex.I * ((o.w_s inp : ℝ) : ℂ) * ((o.par.L_sgm : ℝ) : ℂ)) * o.state.i_s +
      ((((o.par.R_R / o.par.L_M : ℝ)) : ℂ) -
        Complex.I * ((o.w_m_adapted inp : ℝ) : ℂ)) * ((o.state.psi_R : ℝ) : ℂ) +
      o.k_i inp * o.err_i_s inp) / ((o.par.L_sgm : ℝ) : ℂ)

/-- Source `self._work.d_psi_R = -par.alpha*fbk.psi_R + par.R_R*fbk.i_s.real +
(gain.alpha_i*gain.k_o(w_m).real - gain.g)*par.L_sgm*err_i_s.real -
(fbk.w_s - w_m)*par.L_sgm*err_i_s.imag`. -/
noncomputable def FullOrderObserver.d_psi_R (o : FullOrderObserver) (inp : FbkIn) : ℝ :=
  -(o.par.R_R / o.par.L_M) * o.state.psi_R + o.par.R_R * (o.fbk_i_s inp).re +
    (o.alpha_i * (o.k_o (o.w_m_adapted inp)).re - o.g) * o.par.L_sgm *
      (o.err_i_s inp).re -
    (o.w_s inp - o.w_m_adapted inp) * o.par.L_sgm * (o.err_i_s inp).im

/-- Derivative of the integral term of the speed estimate (guarded by
`fbk.psi_R > 0`, otherwise 0). -/
noncomputable def FullOrderObserver.d_w_m (o : FullOrderObserver) (inp : FbkIn) : ℝ :=
  if 0 < o.state.psi_R then
    -o.alpha_o * o.alpha_i * o.par.L_sgm * (o.err_i_s inp).im / o.state.psi_R
  else 0

/-- Feedback record produced by `FullOrderObserver.output` (no slip
frequency field is assigned by this variant). -/
structure FullFbk where
  u_s : ℂ
  i_s : ℂ
  psi_s : ℂ
  psi_R : ℝ
  theta_s : ℝ
  w_m : ℝ
  w_s : ℝ

/-- Source `FullOrderObserver.output`: refreshes the work variables and, as a
side effect of the two assignments `par.R_sgm = par.R_s + par.R_R` and
`par.alpha = par.R_R/par.L_M`, grows the shared `ModelPars` object by the
two derived attributes. -/
noncomputable def FullOrderObserver.output (o : FullOrderObserver) (inp : FbkIn) :
    FullOrderObserver × FullFbk :=
  ({ o with
     par := { o.par with
              R_sgm := some (o.par.R_s + o.par.R_R),
              alpha := some (o.par.R_R / o.par.L_M) },
     work := { d_psi_R := o.d_psi_R inp, d_i_s := o.d_i_s inp,
               d_w_m := o.d_w_m inp } },
   { u_s := o.fbk_u_s inp, i_s := o.fbk_i_s inp,
     psi_s := ((o.par.L_sgm : ℝ) : ℂ) * o.state.i_s + ((o.state.psi_R : ℝ) : ℂ),
     psi_R := o.state.psi_R, theta_s := o.state.theta_s,
     w_m := o.state.w_m, w_s := o.w_s inp })

/-- Source `FullOrderObserver.update`: forward-Euler step of the stored
derivatives and angle wrapping. -/
noncomputable def FullOrderObserver.update (o : FullOrderObserver) (T_s : ℝ)
    (fbk : FullFbk) : FullOrderObserver :=
  { o with
    state := { i_s := o.state.i_s + (T_s : ℂ) * o.work.d_i_s,
               psi_R := o.state.psi_R + T_s * o.work.d_psi_R,
               w_m := o.state.w_m + T_s * o.work.d_w_m,
               theta_s := wrap (o.state.theta_s + T_s * fbk.w_s) } }

/-- Source `Inverter.ac_voltage`: `u_c = q*u_dc`. -/
noncomputable def Inverter.ac_voltage (q : ℂ) (u_dc : ℝ) : ℂ :=
  q * ((u_dc : ℝ) : ℂ)

/-- Source `Inverter.dc_current`: `i_dc = 1.5*np.real(q*np.conj(i_c))`. -/
noncomputable def Inverter.dc_current (q : ℂ) (i_c : ℂ) : ℝ :=
  1.5 * (q * star i_c).re

/-- The `FrequencyConverter` object after `__init__`: stored DC-bus
inductance and capacitance, peak line-neutral grid voltage
`u_g = sqrt(2/3)*U_g` and grid angular frequency `w_g = 2*pi*f_g`. -/
structure FrequencyConverter where
  L : ℝ
  C : ℝ
  u_g : ℝ
  w_g : ℝ

/-- Source `FrequencyConverter.__init__` (the stored initial values `i_L0` and
`u_dc0` play no role in the state-derivative function). -/
noncomputable def mkFrequencyConverter (L C U_g f_g : ℝ) : FrequencyConverter :=
  { L := L, C := C, u_g := Real.sqrt (2 / 3) * U_g, w_g := 2 * Real.pi * f_g }

/-- Source `FrequencyConverter.grid_voltages`: the three phase voltages
`u_g*cos(theta_g - k*2*pi/3)` for `k = 0, 1, 2` with `theta_g = w_g*t`. -/
noncomputable def FrequencyConverter.grid_voltages (fc : FrequencyConverter)
    (t : ℝ) : ℝ × ℝ × ℝ :=
  (fc.u_g * Real.cos (fc.w_g * t),
   fc.u_g * Real.cos (fc.w_g * t - 2 * Real.pi / 3),
   fc.u_g * Real.cos (fc.w_g * t - 4 * Real.pi / 3))

/-- Source `u_di = np.amax(u_g_abc) - np.amin(u_g_abc)`: diode-bridge output
voltage. -/
noncomputable def FrequencyConverter.u_di (fc : FrequencyConverter) (t : ℝ) : ℝ :=
  max (fc.grid_voltages t).1 (max (fc.grid_voltages t).2.1 (fc.grid_voltages t).2.2) -
    min (fc.grid_voltages t).1 (min (fc.grid_voltages t).2.1 (fc.grid_voltages t).2.2)

/-- The unconstrained inductor-current derivative `(u_di - u_dc)/L` before
the diode-conduction clamp. -/
noncomputable def FrequencyConverter.d_i_L_raw (fc : FrequencyConverter)
    (t u_dc : ℝ) : ℝ :=
  (fc.u_di t - u_dc) / fc.L

/-- Source `FrequencyConverter.f`: state derivatives `[d_u_dc, d_i_L]`, with
`d_i_L` zeroed when `i_L < 0 and d_i_L < 0`. -/
noncomputable def FrequencyConverter.f (fc : FrequencyConverter)
    (t u_dc i_L i_dc : ℝ) : ℝ × ℝ :=
  ((i_L - i_dc) / fc.C,
   if i_L < 0 ∧ fc.d_i_L_raw t u_dc < 0 then 0 else fc.d_i_L_raw t u_dc)

/-! Concrete test fixtures used to witness the theorems below. -/

/-- Unit machine parameters (all resistances and inductances 1). -/
def par0 : ModelPars :=
  { R_s := 1, R_R := 1, L_sgm := 1, L_M := 1, n_p := 1, J := 1 }

/-- A freshly initialised sensorless reduced-order observer over `par0`
with the default sensorless gain (here `alpha = R_R/L_M = 1`). -/
noncomputable def obs0 : Observer :=
  { par := par0, sensorless := true, T_s := 1, alpha_o := 1,
    k_o := defaultKoSensorless 1,
    state := { psi_R := 0, theta_s := 0, w_m := 0 },
    work := { d_psi_R := 0, d_w_m := 0, old_i_s := 0 } }

/-- Fixture: `obs0` with a unit rotor-flux magnitude estimate. -/
noncomputable def obs1 : Observer :=
  { obs0 with state := { psi_R := 1, theta_s := 0, w_m := 0 } }

/-- Input with a negative real stator current. -/
noncomputable def inpA : FbkIn := { u_ss := 0, i_ss := -1, w_m := 0 }

/-- Input with a unit stator current and an imaginary stator voltage. -/
noncomputable def inpB : FbkIn := { u_ss := Complex.I, i_ss := 1, w_m := 0 }

/-- Input with zero stator current. -/
noncomputable def inpZ : FbkIn := { u_ss := 5, i_ss := 0, w_m := 0 }

/-- Input with a purely imaginary stator current. -/
noncomputable def inpI : FbkIn := { u_ss := 0, i_ss := Complex.I, w_m := 0 }

/-- A freshly initialised sensorless full-order observer over `par0`. -/
noncomputable def fobs0 : FullOrderObserver :=
  fullObserverInit par0 true 1 1 (defaultKoSensorless 1)

/-- A concrete frequency converter with unit inductance, capacitance,
peak grid voltage and grid angular frequency. -/
noncomputable def fc0 : FrequencyConverter :=
  { L := 1, C := 1, u_g := 1, w_g := 1 }

/-! Helper lemmas. -/

/-- The spec-modelled `wrap` always lands in the interval (-pi, pi]. -/
theorem wrap_mem_Ioc (theta : ℝ) : wrap theta ∈ Set.Ioc (-Real.pi) Real.pi := by
  have hpi : (0 : ℝ) < 2 * Real.pi := by positivity
  set k : ℤ := Int.ceil ((theta - Real.pi) / (2 * Real.pi)) with hk
  have h1 : (theta - Real.pi) / (2 * Real.pi) ≤ (k : ℝ) := Int.le_ceil _
  have h2 : (k : ℝ) < (theta - Real.pi) / (2 * Real.pi) + 1 := Int.ceil_lt_add_one _
  rw [div_le_iff₀ hpi] at h1
  have h2' : ((k : ℝ) - 1) * (2 * Real.pi) < theta - Real.pi := by
    rw [← lt_div_iff₀ hpi]
    linarith
  constructor
  · unfold wrap
    rw [← hk]
    nlinarith
  · unfold wrap
    rw [← hk]
    nlinarith

/-- Value of the default sensorless gain at zero speed and unit `alpha`. -/
theorem eval_k0 : defaultKoSensorless 1 0 = (1 / 2 : ℂ) := by
  simp [defaultKoSensorless]
  norm_num

/-- The rotation factor is 1 when the stored flux angle is 0. -/
theorem eval_rot0 : Complex.exp (-Complex.I * ((0 : ℝ) : ℂ)) = 1 := by simp

/-- Frequency-solving denominator of `obs0` at input `inpA`. -/
theorem eval_den_A : obs0.den inpA = -1 := by
  simp [Observer.den, Observer.gains, Observer.fbk_w_m, Observer.i_s, obs0, inpA,
    par0, eval_k0]
  norm_num

/-- Frequency-solving denominator of `obs0` at input `inpB`. -/
theorem eval_den_B : obs0.den inpB = 1 := by
  simp [Observer.den, Observer.gains, Observer.fbk_w_m, Observer.i_s, obs0, inpB,
    par0, eval_k0]

/-- Numerator of the frequency equation of `obs0` at input `inpB`. -/
theorem eval_num_B : obs0.num inpB = 1 := by
  simp [Observer.num, Observer.gains, Observer.fbk_w_m, Observer.v_s,
    Observer.v_r, Observer.u_s, Observer.i_s, Observer.d_i_s, obs0, inpB, par0,
    eval_k0]

/-- Coordinate-system frequency of `obs0` at input `inpB`. -/
theorem eval_w_s_B : obs0.w_s inpB = 1 := by
  simp [Observer.w_s, eval_den_B, eval_num_B]

/-- Coordinate-system frequency of `obs0` at input `inpA` (fallback). -/
theorem eval_w_s_A : obs0.w_s inpA = 0 := by
  simp only [Observer.w_s, eval_den_A]
  norm_num [Observer.fbk_w_m, obs0]

/-- Stored flux-magnitude derivative of `obs0` at input `inpA`. -/
theorem eval_d_psi_R_A : obs0.d_psi_R inpA = -1 := by
  simp [Observer.d_psi_R, Observer.v, eval_w_s_A, Observer.gains,
    Observer.fbk_w_m, Observer.v_s, Observer.v_r, Observer.u_s, Observer.i_s,
    Observer.d_i_s, obs0, inpA, par0, eval_k0]
  norm_num

/-- Input with a unit real stator current (full-order fixtures). -/
noncomputable def finpP : FbkIn := { u_ss := 0, i_ss := 1, w_m := 0 }

/-- Current-estimation error of `fobs0` at `finpP`. -/
theorem eval_ferr_P : fobs0.err_i_s finpP = 1 := by
  simp only [FullOrderObserver.err_i_s, FullOrderObserver.fbk_i_s, fobs0,
    fullObserverInit, finpP, par0]
  simp

/-- Frequency-solving denominator of `fobs0` at `finpP`. -/
theorem eval_fden_P : fobs0.den finpP = -1 := by
  simp only [FullOrderObserver.den, eval_ferr_P]
  simp [fobs0, fullObserverInit, par0]

/-- Current-estimation error of `fobs0` at `inpA`. -/
theorem eval_ferr_A : fobs0.err_i_s inpA = -1 := by
  simp only [FullOrderObserver.err_i_s, FullOrderObserver.fbk_i_s, fobs0,
    fullObserverInit, inpA, par0]
  simp

/-- Frequency-solving denominator of `fobs0` at `inpA`. -/
theorem eval_fden_A : fobs0.den inpA = 1 := by
  simp only [FullOrderObserver.den, eval_ferr_A]
  simp [fobs0, fullObserverInit, par0]

/-- Adapted speed estimate of `fobs0` at `finpP` (zero flux, zero state). -/
theorem eval_fwm_P : fobs0.w_m_adapted finpP = 0 := by
  simp [FullOrderObserver.w_m_adapted, FullOrderObserver.p_term, fobs0,
    fullObserverInit]

/-- Grid voltages of `fc0` at time 0: the phase angles are `0`, `-2*pi/3`
and `-4*pi/3`. -/
theorem eval_gv0 : fc0.grid_voltages 0 = (1, -(1 / 2 : ℝ), -(1 / 2 : ℝ)) := by
  have h2 : Real.cos ((0 : ℝ) * 0 - 2 * Real.pi / 3) = -(1 / 2 : ℝ) := by
    have h : (0 : ℝ) * 0 - 2 * Real.pi / 3 = -(Real.pi - Real.pi / 3) := by ring
    rw [h, Real.cos_neg, Real.cos_pi_sub, Real.cos_pi_div_three]
  have h4 : Real.cos ((0 : ℝ) * 0 - 4 * Real.pi / 3) = -(1 / 2 : ℝ) := by
    have h : (0 : ℝ) * 0 - 4 * Real.pi / 3 = -(Real.pi / 3 + Real.pi) := by ring
    rw [h, Real.cos_neg, Real.cos_add_pi, Real.cos_pi_div_three]
  have hw : fc0.w_g * (0 : ℝ) = (0 : ℝ) * 0 := by norm_num [fc0]
  simp only [FrequencyConverter.grid_voltages, hw, h2, h4]
  norm_num [fc0]

/-- Diode-bridge output voltage of `fc0` at time 0. -/
theorem eval_udi0 : fc0.u_di 0 = 3 / 2 := by
  rw [FrequencyConverter.u_di, eval_gv0]
  norm_num

/-- The unconstrained inductor-current derivative of `fc0` at time 0 with
a DC-bus voltage of 2. -/
theorem eval_draw0 : fc0.d_i_L_raw 0 2 = -(1 / 2 : ℝ) := by
  rw [FrequencyConverter.d_i_L_raw, eval_udi0]
  norm_num [fc0]

/-! Claim theorems. -/

/-- C1: in the output of both observers the division computing `w_s` is
guarded: the quotient `num/den` is taken only when the frequency-solving
denominator is strictly positive, and whenever the denominator is
non-positive `w_s` equals exactly the current speed estimate (the feedback
speed estimate for the reduced-order observer, the PI-adapted speed
estimate for the full-order one).  The embedded output functions are total
functions of their inputs. -/
theorem w_s_division_guarded (o : Observer) (inp : FbkIn)
    (f : FullOrderObserver) (finp : FbkIn) :
    (o.den inp ≤ 0 → (o.output inp).2.w_s = (o.output inp).2.w_m) ∧
    (0 < o.den inp → (o.output inp).2.w_s = o.num inp / o.den inp) ∧
    (f.den finp ≤ 0 → (f.output finp).2.w_s = f.w_m_adapted finp) ∧
    (0 < f.den finp →
      (f.output finp).2.w_s = f.w_m_adapted finp + f.num finp / f.den finp) := by
  refine ⟨fun h => ?_, fun h => ?_, fun h => ?_, fun h => ?_⟩
  · simp only [Observer.output, Observer.w_s]
    rw [if_neg (not_lt.mpr h)]
  · simp only [Observer.output, Observer.w_s]
    rw [if_pos h]
  · simp only [FullOrderObserver.output, FullOrderObserver.w_s]
    rw [if_neg (not_lt.mpr h)]
  · simp only [FullOrderObserver.output, FullOrderObserver.w_s]
    rw [if_pos h]

/-- Witness for C1: both fallback branches and both quotient branches are
realised at concrete inputs. -/
theorem w_s_division_guarded_witness :
    (obs0.den inpA ≤ 0 ∧ (obs0.output inpA).2.w_s = (obs0.output inpA).2.w_m) ∧
    (0 < obs0.den inpB ∧ (obs0.output inpB).2.w_s = obs0.num inpB / obs0.den inpB) ∧
    (fobs0.den finpP ≤ 0 ∧ (fobs0.output finpP).2.w_s = fobs0.w_m_adapted finpP) ∧
    (0 < fobs0.den inpA ∧ (fobs0.output inpA).2.w_s =
      fobs0.w_m_adapted inpA + fobs0.num inpA / fobs0.den inpA) := by
  have hA : obs0.den inpA ≤ 0 := by rw [eval_den_A]; norm_num
  have hB : (0 : ℝ) < obs0.den inpB := by rw [eval_den_B]; norm_num
  have hP : fobs0.den finpP ≤ 0 := by rw [eval_fden_P]; norm_num
  have hN : (0 : ℝ) < fobs0.den inpA := by rw [eval_fden_A]; norm_num
  exact ⟨⟨hA, (w_s_division_guarded obs0 inpA fobs0 finpP).1 hA⟩,
    ⟨hB, (w_s_division_guarded obs0 inpB fobs0 finpP).2.1 hB⟩,
    ⟨hP, (w_s_division_guarded obs0 inpA fobs0 finpP).2.2.1 hP⟩,
    ⟨hN, (w_s_division_guarded obs0 inpA fobs0 inpA).2.2.2 hN⟩⟩

/-- C2: the slip frequency returned by the reduced-order `Observer.output`
is `R_R*Im(i_s)/psi_R` when the flux-magnitude estimate is strictly
positive and exactly 0 otherwise (the latter branch performs no division). -/
theorem w_r_guarded (o : Observer) (inp : FbkIn) :
    (0 < o.state.psi_R → (o.output inp).2.w_r =
      o.par.R_R * ((o.output inp).2.i_s).im / o.state.psi_R) ∧
    (o.state.psi_R ≤ 0 → (o.output inp).2.w_r = 0) := by
  refine ⟨fun h => ?_, fun h => ?_⟩
  · simp only [Observer.output, Observer.w_r]
    rw [if_pos h]
  · simp only [Observer.output, Observer.w_r]
    rw [if_neg (not_lt.mpr h)]

/-- Witness for C2: both branches at concrete observers and inputs. -/
theorem w_r_guarded_witness :
    (0 < obs1.state.psi_R ∧ (obs1.output inpI).2.w_r =
      obs1.par.R_R * ((obs1.output inpI).2.i_s).im / obs1.state.psi_R) ∧
    (obs0.state.psi_R ≤ 0 ∧ (obs0.output inpA).2.w_r = 0) := by
  have h1 : (0 : ℝ) < obs1.state.psi_R := by norm_num [obs1]
  have h0 : obs0.state.psi_R ≤ 0 := by norm_num [obs0]
  exact ⟨⟨h1, (w_r_guarded obs1 inpI).1 h1⟩, ⟨h0, (w_r_guarded obs0 inpA).2 h0⟩⟩

/-- Counterexample to C3 as stated: at `psi_R = 0` (non-positive) but with
a nonzero stator current, the frequency-solving denominator is positive,
the quotient is taken, and the returned `w_s = 1` differs from the speed
estimate `w_m = 0`. -/
theorem w_s_psi_R_fallback_ctrex :
    obs0.state.psi_R ≤ 0 ∧
    (obs0.output inpB).2.w_s ≠ (obs0.output inpB).2.w_m := by
  constructor
  · norm_num [obs0]
  · have h1 : (obs0.output inpB).2.w_s = 1 := by
      simp only [Observer.output]
      exact eval_w_s_B
    have h2 : (obs0.output inpB).2.w_m = 0 := by
      simp only [Observer.output]
      norm_num [Observer.fbk_w_m, obs0]
    rw [h1, h2]
    norm_num

/-- C3 amended: with `psi_R ≤ 0` and a vanishing stator current (so that
the gain-weighted current term of the denominator vanishes as well), the
returned `w_s` exactly equals the speed estimate `w_m`; in general the
guard tests the full denominator, which can be positive even when
`psi_R ≤ 0`. -/
theorem w_s_psi_R_fallback_amended (o : Observer) (inp : FbkIn)
    (hpsi : o.state.psi_R ≤ 0) (hi : inp.i_ss = 0) :
    (o.output inp).2.w_s = (o.output inp).2.w_m := by
  have his : o.i_s inp = 0 := by simp [Observer.i_s, hi]
  have hden : o.den inp = o.state.psi_R := by simp [Observer.den, his]
  simp only [Observer.output, Observer.w_s, hden]
  rw [if_neg (not_lt.mpr hpsi)]

/-- Witness for the amended C3 at a concrete observer and input. -/
theorem w_s_psi_R_fallback_amended_witness :
    obs0.state.psi_R ≤ 0 ∧ inpZ.i_ss = 0 ∧
    (obs0.output inpZ).2.w_s = (obs0.output inpZ).2.w_m :=
  ⟨by norm_num [obs0], by norm_num [inpZ],
    w_s_psi_R_fallback_amended obs0 inpZ (by norm_num [obs0]) (by norm_num [inpZ])⟩

/-- C5: calling `output` followed by `update` on either observer leaves
the flux-angle state wrapped within the interval (-pi, pi]. -/
theorem theta_s_wrapped (o : Observer) (inp : FbkIn) (T_s : ℝ)
    (f : FullOrderObserver) (finp : FbkIn) (T_s2 : ℝ) :
    ((o.output inp).1.update T_s (o.output inp).2).state.theta_s ∈
      Set.Ioc (-Real.pi) Real.pi ∧
    ((f.output finp).1.update T_s2 (f.output finp).2).state.theta_s ∈
      Set.Ioc (-Real.pi) Real.pi := by
  constructor
  · simp only [Observer.update]
    exact wrap_mem_Ioc _
  · simp only [FullOrderObserver.update]
    exact wrap_mem_Ioc _

/-- C4 (code bug): at an inductor current of exactly 0 with a strictly
negative unconstrained derivative, the clamp in `FrequencyConverter.f`
does not fire (its guard tests `i_L < 0` strictly), so the returned
inductor-current derivative is the negative `-(1/2)` instead of the
documented 0: concretely at `t = 0`, `u_dc = 2`, `i_L = 0`, `i_dc = 0`
with unit converter parameters. -/
theorem diode_clamp_misses_zero_current :
    fc0.d_i_L_raw 0 2 < 0 ∧
    (fc0.f 0 2 0 0).2 = fc0.d_i_L_raw 0 2 ∧
    (fc0.f 0 2 0 0).2 ≠ 0 := by
  have hraw : fc0.d_i_L_raw 0 2 = -(1 / 2 : ℝ) := eval_draw0
  have hf : (fc0.f 0 2 0 0).2 = fc0.d_i_L_raw 0 2 := by
    simp only [FrequencyConverter.f]
    rw [if_neg]
    intro h
    exact absurd h.1 (by norm_num)
  refine ⟨by rw [hraw]; norm_num, hf, ?_⟩
  rw [hf, hraw]
  norm_num

/-- Counterexample to C6 as stated: from the (reachable) freshly
initialised state with `psi_R = 0`, one `output`/`update` cycle drives the
flux-magnitude state strictly negative. -/
theorem psi_R_nonneg_not_preserved :
    obs0.state.psi_R = 0 ∧
    ((obs0.output inpA).1.update 1 (obs0.output inpA).2).state.psi_R < 0 := by
  constructor
  · norm_num [obs0]
  · simp only [Observer.update, Observer.output]
    rw [eval_d_psi_R_A]
    norm_num [obs0]

/-- C6 amended: the flux-magnitude state is 0, hence non-negative, at
construction of either observer; `update` does not preserve
non-negativity in general (the code guards each division by `psi_R > 0`
instead of maintaining an invariant). -/
theorem psi_R_nonneg_initially (op : ObserverPars) (mp : ModelPars)
    (sl : Bool) (a_o a_i : ℝ) (k : ℝ → ℂ) :
    0 ≤ (Observer.init op).state.psi_R ∧
    0 ≤ (fullObserverInit mp sl a_o a_i k).state.psi_R := by
  constructor <;> norm_num [Observer.init, fullObserverInit]

/-- C7: constructing a full-order observer in sensored mode fails at
construction with the `NotImplementedError` message, and constructing it
sensorless succeeds, returning the initialised observer. -/
theorem full_order_rejects_sensored (mp : ModelPars) (sl : Bool)
    (a_o a_i : ℝ) (k : ℝ → ℂ) :
    (sl = false →
      mkFullOrderObserver mp sl a_o a_i k = Except.error sensoredErrMsg) ∧
    (sl = true → mkFullOrderObserver mp sl a_o a_i k =
      Except.ok (fullObserverInit mp sl a_o a_i k)) := by
  constructor <;> intro h <;> simp [mkFullOrderObserver, h]

/-- Witness for C7: a concrete sensored construction fails, a concrete
sensorless construction succeeds. -/
theorem full_order_rejects_sensored_witness :
    mkFullOrderObserver par0 false 1 1 (defaultKoSensored 1) =
      Except.error sensoredErrMsg ∧
    mkFullOrderObserver par0 true 1 1 (defaultKoSensorless 1) =
      Except.ok (fullObserverInit par0 true 1 1 (defaultKoSensorless 1)) :=
  ⟨(full_order_rejects_sensored par0 false 1 1 (defaultKoSensored 1)).1 rfl,
    (full_order_rejects_sensored par0 true 1 1 (defaultKoSensorless 1)).2 rfl⟩

/-- Counterexample to C8 as stated: `FullOrderObserver.output` mutates the
`ModelPars` record it shares with its owner, growing it by the derived
attribute `R_sgm` (and `alpha`), so the record after the call differs from
the record before it. -/
theorem model_pars_mutated_ctrex : ((fobs0.output finpP).1).par ≠ fobs0.par := by
  have h1 : ((fobs0.output finpP).1).par.R_sgm = some 2 := by
    simp only [FullOrderObserver.output]
    norm_num [fobs0, fullObserverInit, par0]
  have h0 : fobs0.par.R_sgm = none := by
    norm_num [fobs0, fullObserverInit, par0]
  intro h
  rw [h, h0] at h1
  exact Option.noConfusion h1

/-- C8 amended: the six declared `ModelPars` fields are never reassigned
by any `output`/`update` call of either observer, and the reduced-order
observer leaves the record entirely unchanged (as does
`FullOrderObserver.update`); but `FullOrderObserver.output` additionally
stores the derived attributes `R_sgm = R_s + R_R` and `alpha = R_R/L_M`
on the shared record at every call. -/
theorem model_pars_fields_preserved (o : Observer) (inp : FbkIn) (T_s : ℝ)
    (fbk : Fbk) (f : FullOrderObserver) (finp : FbkIn) (T_s2 : ℝ)
    (ffbk : FullFbk) :
    (o.output inp).1.par = o.par ∧ (o.update T_s fbk).par = o.par ∧
    (f.update T_s2 ffbk).par = f.par ∧
    ((f.output finp).1.par.R_s = f.par.R_s ∧
      (f.output finp).1.par.R_R = f.par.R_R ∧
      (f.output finp).1.par.L_sgm = f.par.L_sgm ∧
      (f.output finp).1.par.L_M = f.par.L_M ∧
      (f.output finp).1.par.n_p = f.par.n_p ∧
      (f.output finp).1.par.J = f.par.J) ∧
    (f.output finp).1.par.R_sgm = some (f.par.R_s + f.par.R_R) ∧
    (f.output finp).1.par.alpha = some (f.par.R_R / f.par.L_M) := by
  refine ⟨?_, ?_, ?_, ⟨?_, ?_, ?_, ?_, ?_, ?_⟩, ?_, ?_⟩ <;>
    simp [Observer.output, Observer.update, FullOrderObserver.update,
      FullOrderObserver.output]

/-- C9: the reduced-order observer's correction uses one gain term in
sensorless mode (the coefficients multiplying the correction and its
conjugate coincide, so the correction is a single gain scaling the
conjugate-symmetric combination), while sensored mode uses the two
independent coefficients `(k_o(w_m), 0)` — independent in that the first
is never forced to agree with the second: the default sensored gain is
nonzero at every speed. -/
theorem observer_gain_structure (o : Observer) (inp : FbkIn) (z : ℂ)
    (alpha w : ℝ) (ha : 0 < alpha) :
    (o.sensorless = true → (o.gains inp).1 = (o.gains inp).2 ∧
      (o.gains inp).1 * z + (o.gains inp).2 * star z =
        (o.gains inp).1 * (z + star z)) ∧
    (o.sensorless = false → (o.gains inp).1 = o.k_o (o.fbk_w_m inp) ∧
      (o.gains inp).2 = 0) ∧
    defaultKoSensored alpha w ≠ 0 := by
  refine ⟨fun h => ?_, fun h => ?_, ?_⟩
  · refine ⟨by simp [Observer.gains, h], ?_⟩
    simp only [Observer.gains, h, if_true]
    ring
  · simp only [Observer.gains, h]
    simp
  · have hre : (defaultKoSensored alpha w).re =
        1 + 0.2 * |w| * alpha / (alpha ^ 2 + w ^ 2) := by
      simp [defaultKoSensored, Complex.div_re, Complex.normSq_apply]
      ring
    have hnn : 0 ≤ 0.2 * |w| * alpha / (alpha ^ 2 + w ^ 2) := by
      apply div_nonneg
      · have := ha.le
        positivity
      · positivity
    intro heq
    have : (defaultKoSensored alpha w).re = 0 := by rw [heq]; simp
    rw [hre] at this
    linarith

/-- Witness for C9: the sensorless gains of a concrete observer coincide,
and the default sensored gain is nonzero at zero speed. -/
theorem observer_gain_structure_witness :
    (obs0.gains inpI).1 = (obs0.gains inpI).2 ∧ defaultKoSensored 1 0 ≠ 0 :=
  ⟨((observer_gain_structure obs0 inpI 0 1 0 (by norm_num)).1 rfl).1,
    (observer_gain_structure obs0 inpI 0 1 0 (by norm_num)).2.2⟩

/-- C10: the inverter model is lossless: for every switching-state vector,
AC-side current and DC-bus voltage, the AC-side power
`1.5*Re(u_c*conj(i_c))` equals the DC-side power `u_dc*i_dc`. -/
theorem inverter_lossless (q i_c : ℂ) (u_dc : ℝ) :
    1.5 * (Inverter.ac_voltage q u_dc * star i_c).re =
      u_dc * Inverter.dc_current q i_c := by
  rw [Inverter.ac_voltage, Inverter.dc_current]
  rw [show q * ((u_dc : ℝ) : ℂ) * star i_c = ((u_dc : ℝ) : ℂ) * (q * star i_c) by
    ring]
  rw [Complex.re_ofReal_mul]
  ring

end Motulator
